import Mathlib

/-!
Verification of the loan-eligibility form applications (variant A: app.py,
variant B: myapp.py). The Python sources are shallowly embedded: the
applicant record, the single-row feature table, the opaque model artifact
(predict / predict-probability as functions that may fail), the artifact
loader, the per-submission prediction step with its exception boundary, and
the result formatting (percent with two decimals, dollar amounts with
thousands separators).
-/

/-- The Applicant Record: the eight fields collected by the form.
Integers stay integers; the two monetary floats are modelled as rationals;
the enumerated fields are strings, as in the Python sources. -/
structure ApplicantRecord where
  age : Int
  statedMonthlyIncome : ℚ
  loanAmount : ℚ
  employmentStatus : String
  creditScore : Int
  loanTerm : Int
  loanPurpose : String
  delinquencies : Int
deriving DecidableEq, Repr

/-- A cell of the assembled single-row table or of the summary table:
Python values here are ints, floats, or strings. -/
inductive FieldValue where
  | intVal (n : Int)
  | floatVal (q : ℚ)
  | strVal (s : String)
deriving DecidableEq, Repr

/-- The single-row DataFrame: column name paired with its one-element
column, in insertion order. -/
abbrev InputData := List (String × List FieldValue)

/-- app.py lines 58-67: the dict passed to pd.DataFrame, one key per
column, each holding a one-element list. -/
def input_data (r : ApplicantRecord) : InputData :=
  [("Age", [.intVal r.age]),
   ("StatedMonthlyIncome", [.floatVal r.statedMonthlyIncome]),
   ("LoanAmount", [.floatVal r.loanAmount]),
   ("EmploymentStatus", [.strVal r.employmentStatus]),
   ("CreditScore", [.intVal r.creditScore]),
   ("LoanTerm", [.intVal r.loanTerm]),
   ("LoanPurpose", [.strVal r.loanPurpose]),
   ("Delinquencies", [.intVal r.delinquencies])]

/-- myapp.py lines 111-120: the identical dict in variant B. -/
def input_dataB (r : ApplicantRecord) : InputData :=
  [("Age", [.intVal r.age]),
   ("StatedMonthlyIncome", [.floatVal r.statedMonthlyIncome]),
   ("LoanAmount", [.floatVal r.loanAmount]),
   ("EmploymentStatus", [.strVal r.employmentStatus]),
   ("CreditScore", [.intVal r.creditScore]),
   ("LoanTerm", [.intVal r.loanTerm]),
   ("LoanPurpose", [.strVal r.loanPurpose]),
   ("Delinquencies", [.intVal r.delinquencies])]

/-- The §3 range invariants of the form widgets (min/max/options of
app.py lines 42-51 and myapp.py lines 49-102). -/
def validRecord (r : ApplicantRecord) : Prop :=
  18 ≤ r.age ∧ r.age ≤ 100 ∧
  0 ≤ r.statedMonthlyIncome ∧ r.statedMonthlyIncome ≤ 100000 ∧
  1000 ≤ r.loanAmount ∧ r.loanAmount ≤ 50000 ∧
  r.employmentStatus ∈ ["Employed", "Self-employed", "Unemployed"] ∧
  300 ≤ r.creditScore ∧ r.creditScore ≤ 850 ∧
  r.loanTerm ∈ ([12, 36, 60] : List Int) ∧
  r.loanPurpose ∈ ["Debt Consolidation", "Home Improvement", "Business",
    "Education", "Other"] ∧
  0 ≤ r.delinquencies ∧ r.delinquencies ≤ 20

instance (r : ApplicantRecord) : Decidable (validRecord r) := by
  unfold validRecord
  infer_instance

/-- app.py line 72 (and myapp.py line 130): the conditional expression
picking the probability at index 1 when the prediction is 1, otherwise at
index 0. Out-of-range indexing, an exception in Python, is `none`. -/
def confidence_score (prediction : Int) (proba : List ℚ) : Option ℚ :=
  if prediction = 1 then proba[1]? else proba[0]?

/-- myapp.py line 130: textually identical expression in variant B. -/
def confidence_scoreB (prediction : Int) (proba : List ℚ) : Option ℚ :=
  if prediction = 1 then proba[1]? else proba[0]?

/-- The two verdict messages: `eligible` stands for the st.success
message containing Eligible for Loan; `highRisk` for the st.error
message containing High Credit Risk. -/
inductive Verdict where
  | eligible
  | highRisk
deriving DecidableEq, Repr

/-- app.py line 76: variant A shows Eligible for Loan when the
prediction equals 1. -/
def verdictA (prediction : Int) : Verdict :=
  if prediction = 1 then .eligible else .highRisk

/-- myapp.py line 135: variant B shows Eligible for Loan when the
prediction equals 0. -/
def verdictB (prediction : Int) : Verdict :=
  if prediction = 0 then .eligible else .highRisk

/-- Round the fraction n over d (d positive) to the nearest integer,
ties to even, as Python number formatting does. -/
def divRoundHalfEven (n : Int) (d : Nat) : Int :=
  let f := Int.fdiv n d
  let r := n - f * d
  if 2 * r < (d : Int) then f
  else if (d : Int) < 2 * r then f + 1
  else if f % 2 = 0 then f else f + 1

/-- Two-digit zero-padded rendering of a remainder below 100. -/
def pad2 (n : Nat) : String :=
  if n < 10 then "0" ++ toString n else toString n

/-- Python format .2percent: multiply by 100, round to two decimal
places, append a percent sign (app.py line 78, myapp.py line 137). The
scaled value q times 10000 is computed on the numerator to stay in
integer arithmetic. -/
def formatPercent (q : ℚ) : String :=
  let n := divRoundHalfEven (q.num * 10000) q.den
  let sign := if n < 0 then "-" else ""
  let m := n.natAbs
  sign ++ toString (m / 100) ++ "." ++ pad2 (m % 100) ++ "%"

/-- Insert a comma after every three characters of a reversed digit
list, as thousands grouping does counted from the right. -/
def commaGroupRev : List Char → List Char
  | a :: b :: c :: d :: rest => a :: b :: c :: ',' :: commaGroupRev (d :: rest)
  | l => l

/-- Thousands-grouping of a digit string. -/
def commaGroup (s : String) : String :=
  String.mk (commaGroupRev s.data.reverse).reverse

/-- Python format for a dollar amount with comma grouping and two
decimals (app.py line 90, myapp.py line 149). -/
def dollarFormat (q : ℚ) : String :=
  let n := divRoundHalfEven (q.num * 100) q.den
  let sign := if n < 0 then "-" else ""
  let m := n.natAbs
  "$" ++ sign ++ commaGroup (toString (m / 100)) ++ "." ++ pad2 (m % 100)

/-- app.py lines 88-89 and myapp.py lines 147-148: the Parameter column
of the summary table. -/
def summary_params : List String :=
  ["Age", "Monthly Income (USD)", "Loan Amount (USD)", "Employment Status",
   "Credit Score", "Loan Term (months)", "Loan Purpose", "Delinquencies"]

/-- app.py lines 90-91 and myapp.py lines 149-150: the Value column of
the summary table; income and loan amount are dollar-formatted strings,
the other six entries are the raw inputs. -/
def summary_values (r : ApplicantRecord) : List FieldValue :=
  [.intVal r.age,
   .strVal (dollarFormat r.statedMonthlyIncome),
   .strVal (dollarFormat r.loanAmount),
   .strVal r.employmentStatus,
   .intVal r.creditScore,
   .intVal r.loanTerm,
   .strVal r.loanPurpose,
   .intVal r.delinquencies]

/-- Everything rendered by a successful prediction: the label, the
confidence and its percent text, the verdict, and the summary table. -/
structure RenderedResult where
  prediction : Int
  confidence : ℚ
  verdict : Verdict
  confidenceText : String
  summaryParameters : List String
  summaryValues : List FieldValue
deriving DecidableEq, Repr

/-- Variant A model artifact (the pickled pipeline): predict and
predict-probability over the raw single-row table, either returning a
value or raising (modelled as Except.error with the exception text). -/
structure Pipeline where
  predict : InputData → Except String (List Int)
  predictProba : InputData → Except String (List (List ℚ))

/-- Variant B preprocessor output: an opaque numeric row. -/
abbrev ProcessedData := List ℚ

/-- Variant B preprocessor artifact (preprocessor.pkl). -/
structure Preprocessor where
  transform : InputData → Except String ProcessedData

/-- Variant B model artifact (model.pkl): predict and
predict-probability over the preprocessed row. -/
structure ModelB where
  predict : ProcessedData → Except String (List Int)
  predictProba : ProcessedData → Except String (List (List ℚ))

/-- app.py lines 58-93: the body of the try block. Each fallible step
(the two inference calls and each indexing) short-circuits to the except
branch with its exception text. -/
def tryBodyA (pl : Pipeline) (r : ApplicantRecord) : Except String RenderedResult :=
  match pl.predict (input_data r) with
  | .error e => .error e
  | .ok preds =>
    match preds[0]? with
    | none => .error "IndexError"
    | some prediction =>
      match pl.predictProba (input_data r) with
      | .error e => .error e
      | .ok probas =>
        match probas[0]? with
        | none => .error "IndexError"
        | some proba =>
          match confidence_score prediction proba with
          | none => .error "IndexError"
          | some confidence =>
            .ok { prediction := prediction
                  confidence := confidence
                  verdict := verdictA prediction
                  confidenceText := formatPercent confidence
                  summaryParameters := summary_params
                  summaryValues := summary_values r }

/-- myapp.py lines 109-152: the body of the try block in variant B; the
row first passes through the preprocessor, then the model. -/
def tryBodyB (m : ModelB) (pre : Preprocessor) (r : ApplicantRecord) :
    Except String RenderedResult :=
  match pre.transform (input_dataB r) with
  | .error e => .error e
  | .ok processed =>
    match m.predict processed with
    | .error e => .error e
    | .ok preds =>
      match preds[0]? with
      | none => .error "IndexError"
      | some prediction =>
        match m.predictProba processed with
        | .error e => .error e
        | .ok probas =>
          match probas[0]? with
          | none => .error "IndexError"
          | some proba =>
            match confidence_scoreB prediction proba with
            | none => .error "IndexError"
            | some confidence =>
              .ok { prediction := prediction
                    confidence := confidence
                    verdict := verdictB prediction
                    confidenceText := formatPercent confidence
                    summaryParameters := summary_params
                    summaryValues := summary_values r }

/-- What the prediction section of the page shows after a submission:
nothing (branch not entered), the caught-exception message, or the
rendered result. -/
inductive PredictionOutput where
  | noOutput
  | errorMsg (msg : String)
  | rendered (res : RenderedResult)
deriving DecidableEq, Repr

/-- One rendered page: the form is always present; the prediction
section depends on the submission. -/
structure AppPage where
  formRendered : Bool
  predictionOutput : PredictionOutput
deriving DecidableEq, Repr

/-- app.py lines 56-97: the form always renders; the prediction branch
runs only when the submit button was pressed and the pipeline is not
None; an exception inside the try block becomes the
Error during prediction message. -/
def appStepA (pipeline : Option Pipeline) (submit : Bool) (r : ApplicantRecord) :
    AppPage :=
  { formRendered := true
    predictionOutput :=
      match submit, pipeline with
      | true, some pl =>
        match tryBodyA pl r with
        | .ok res => .rendered res
        | .error e => .errorMsg ("Error during prediction: " ++ e)
      | _, _ => .noOutput }

/-- myapp.py lines 108-156: variant B guard requires the submit button,
the model and the preprocessor. -/
def appStepB (model : Option ModelB) (pre : Option Preprocessor) (submit : Bool)
    (r : ApplicantRecord) : AppPage :=
  { formRendered := true
    predictionOutput :=
      match submit, model, pre with
      | true, some m, some p =>
        match tryBodyB m p r with
        | .ok res => .rendered res
        | .error e => .errorMsg ("Error during prediction: " ++ e)
      | _, _, _ => .noOutput }

/-- The two ways deserializing an artifact file can fail in the sources:
the file is absent (FileNotFoundError) or pickle.load raises. -/
inductive LoadErr where
  | fileNotFound
  | deserialError (msg : String)
deriving DecidableEq, Repr

/-- app.py lines 20-31: load the pickled pipeline; on FileNotFoundError
or any other exception show an error and return None. The returned list
is the st.error messages displayed. -/
def load_model_pipeline (readPipeline : Except LoadErr Pipeline) :
    Option Pipeline × List String :=
  match readPipeline with
  | .ok pl => (some pl, [])
  | .error .fileNotFound =>
      (none, ["Model file not found. Please ensure \x27model_pipeline_Nb.pkl\x27 exists in the directory."])
  | .error (.deserialError e) =>
      (none, ["Error loading model pipeline: " ++ e])

/-- myapp.py lines 22-37: load model.pkl then preprocessor.pkl inside
one try; a failure of either yields (None, None) and an error message. -/
def load_model_and_preprocessor (readModel : Except LoadErr ModelB)
    (readPre : Except LoadErr Preprocessor) :
    (Option ModelB × Option Preprocessor) × List String :=
  match readModel with
  | .error .fileNotFound =>
      ((none, none), ["Model or preprocessor files not found. Please ensure \x27model.pkl\x27 and \x27preprocessor.pkl\x27 exist in the current directory."])
  | .error (.deserialError e) =>
      ((none, none), ["Error loading model or preprocessor: " ++ e])
  | .ok m =>
    match readPre with
    | .error .fileNotFound =>
        ((none, none), ["Model or preprocessor files not found. Please ensure \x27model.pkl\x27 and \x27preprocessor.pkl\x27 exist in the current directory."])
    | .error (.deserialError e) =>
        ((none, none), ["Error loading model or preprocessor: " ++ e])
    | .ok p => ((some m, some p), [])

/-- A process lifetime of variant A: the artifact is loaded once
(st.cache_resource) and each submission is served against that same
loaded value. Returns the load-time error messages and the page of each
submission. -/
def runSessionA (readPipeline : Except LoadErr Pipeline)
    (subs : List (Bool × ApplicantRecord)) : List String × List AppPage :=
  let loaded := load_model_pipeline readPipeline
  (loaded.2, subs.map (fun s => appStepA loaded.1 s.1 s.2))

/-- A process lifetime of variant B. -/
def runSessionB (readModel : Except LoadErr ModelB)
    (readPre : Except LoadErr Preprocessor)
    (subs : List (Bool × ApplicantRecord)) : List String × List AppPage :=
  let loaded := load_model_and_preprocessor readModel readPre
  (loaded.2, subs.map (fun s => appStepB loaded.1.1 loaded.1.2 s.1 s.2))

/-- The record of the §8 end-to-end scenario: all defaults except
LoanTerm 36. -/
def demoRecord : ApplicantRecord :=
  { age := 30
    statedMonthlyIncome := 5000
    loanAmount := 10000
    employmentStatus := "Employed"
    creditScore := 700
    loanTerm := 36
    loanPurpose := "Debt Consolidation"
    delinquencies := 0 }

/-- The §8 boundary scenario record: Age, CreditScore, Delinquencies and
LoanAmount at their legal bounds. -/
def boundaryRecord : ApplicantRecord :=
  { age := 18
    statedMonthlyIncome := 5000
    loanAmount := 50000
    employmentStatus := "Employed"
    creditScore := 300
    loanTerm := 12
    loanPurpose := "Debt Consolidation"
    delinquencies := 20 }

/-- Stub variant A artifact: predict always returns label 1,
predict-probability always returns the vector 0.2, 0.8. -/
def stubPipeline : Pipeline :=
  { predict := fun _ => .ok [1]
    predictProba := fun _ => .ok [[mkRat 2 10, mkRat 8 10]] }

/-- Stub variant A artifact whose inference calls always raise. -/
def failingPipeline : Pipeline :=
  { predict := fun _ => .error "boom"
    predictProba := fun _ => .error "boom" }

/-- Stub variant B preprocessor: emits a fixed numeric row. -/
def stubPre : Preprocessor :=
  { transform := fun _ => .ok [1, 0] }

/-- Stub variant B model: predict always returns label 0,
predict-probability always returns the vector 0.7, 0.3. -/
def stubModelB : ModelB :=
  { predict := fun _ => .ok [0]
    predictProba := fun _ => .ok [[mkRat 7 10, mkRat 3 10]] }

/-- Stub variant B model whose inference calls always raise. -/
def failingModelB : ModelB :=
  { predict := fun _ => .error "boom"
    predictProba := fun _ => .error "boom" }

/-- The result rendered by variant A for `demoRecord` against
`stubPipeline`. -/
def demoResultA : RenderedResult :=
  { prediction := 1
    confidence := mkRat 8 10
    verdict := .eligible
    confidenceText := "80.00%"
    summaryParameters := summary_params
    summaryValues := summary_values demoRecord }

/-- The result rendered by variant B for `demoRecord` against
`stubModelB` and `stubPre`. -/
def demoResultB : RenderedResult :=
  { prediction := 0
    confidence := mkRat 7 10
    verdict := .eligible
    confidenceText := "70.00%"
    summaryParameters := summary_params
    summaryValues := summary_values demoRecord }

/-- Modelled from the spec: the Value column the claim about the summary
table describes, echoing all eight submitted field values verbatim,
unchanged from what the user entered. To be compared with
`summary_values`, which is translated from the sources. -/
def specVerbatimEcho (r : ApplicantRecord) : List FieldValue :=
  [.intVal r.age,
   .floatVal r.statedMonthlyIncome,
   .floatVal r.loanAmount,
   .strVal r.employmentStatus,
   .intVal r.creditScore,
   .intVal r.loanTerm,
   .strVal r.loanPurpose,
   .intVal r.delinquencies]

/-- Inversion of a successful variant A try block: a success pins every
rendered field to the stages of the source computation. -/
theorem tryBodyA_ok_inv (pl : Pipeline) (r : ApplicantRecord) (res : RenderedResult)
    (h : tryBodyA pl r = .ok res) :
    ∃ preds probas proba,
      pl.predict (input_data r) = .ok preds ∧
      preds[0]? = some res.prediction ∧
      pl.predictProba (input_data r) = .ok probas ∧
      probas[0]? = some proba ∧
      confidence_score res.prediction proba = some res.confidence ∧
      res.verdict = verdictA res.prediction ∧
      res.confidenceText = formatPercent res.confidence ∧
      res.summaryParameters = summary_params ∧
      res.summaryValues = summary_values r := by
  cases hp : pl.predict (input_data r) with
  | error e => simp [tryBodyA, hp] at h
  | ok preds =>
    cases hq : preds[0]? with
    | none => simp [tryBodyA, hp, hq] at h
    | some prediction =>
      cases hr : pl.predictProba (input_data r) with
      | error e => simp [tryBodyA, hp, hq, hr] at h
      | ok probas =>
        cases hs : probas[0]? with
        | none => simp [tryBodyA, hp, hq, hr, hs] at h
        | some proba =>
          cases ht : confidence_score prediction proba with
          | none => simp [tryBodyA, hp, hq, hr, hs, ht] at h
          | some confidence =>
            simp only [tryBodyA, hp, hq, hr, hs, ht, Except.ok.injEq] at h
            subst h
            exact ⟨preds, probas, proba, rfl, hq, rfl, hs, ht, rfl, rfl, rfl, rfl⟩

/-- Inversion of a successful variant B try block. -/
theorem tryBodyB_ok_inv (m : ModelB) (pre : Preprocessor) (r : ApplicantRecord)
    (res : RenderedResult) (h : tryBodyB m pre r = .ok res) :
    ∃ processed preds probas proba,
      pre.transform (input_dataB r) = .ok processed ∧
      m.predict processed = .ok preds ∧
      preds[0]? = some res.prediction ∧
      m.predictProba processed = .ok probas ∧
      probas[0]? = some proba ∧
      confidence_scoreB res.prediction proba = some res.confidence ∧
      res.verdict = verdictB res.prediction ∧
      res.confidenceText = formatPercent res.confidence ∧
      res.summaryParameters = summary_params ∧
      res.summaryValues = summary_values r := by
  cases hw : pre.transform (input_dataB r) with
  | error e => simp [tryBodyB, hw] at h
  | ok processed =>
    cases hp : m.predict processed with
    | error e => simp [tryBodyB, hw, hp] at h
    | ok preds =>
      cases hq : preds[0]? with
      | none => simp [tryBodyB, hw, hp, hq] at h
      | some prediction =>
        cases hr : m.predictProba processed with
        | error e => simp [tryBodyB, hw, hp, hq, hr] at h
        | ok probas =>
          cases hs : probas[0]? with
          | none => simp [tryBodyB, hw, hp, hq, hr, hs] at h
          | some proba =>
            cases ht : confidence_scoreB prediction proba with
            | none => simp [tryBodyB, hw, hp, hq, hr, hs, ht] at h
            | some confidence =>
              simp only [tryBodyB, hw, hp, hq, hr, hs, ht, Except.ok.injEq] at h
              subst h
              exact ⟨processed, preds, probas, proba, rfl, hp, hq, hr, hs, ht,
                rfl, rfl, rfl, rfl⟩

/-- The variant A guard never fires without a loaded pipeline. -/
theorem appStepA_noPipeline (submit : Bool) (r : ApplicantRecord) :
    appStepA none submit r = ⟨true, .noOutput⟩ := by
  cases submit <;> rfl

/-- The variant B guard never fires without loaded artifacts. -/
theorem appStepB_noArtifact (submit : Bool) (r : ApplicantRecord) :
    appStepB none none submit r = ⟨true, .noOutput⟩ := by
  cases submit <;> rfl

theorem verdictA_eligible_iff (p : Int) : verdictA p = .eligible ↔ p = 1 := by
  unfold verdictA
  split <;> simp_all

theorem verdictA_highRisk_iff (p : Int) : verdictA p = .highRisk ↔ p ≠ 1 := by
  unfold verdictA
  split <;> simp_all

theorem verdictB_eligible_iff (p : Int) : verdictB p = .eligible ↔ p = 0 := by
  unfold verdictB
  split <;> simp_all

theorem verdictB_highRisk_iff (p : Int) : verdictB p = .highRisk ↔ p ≠ 0 := by
  unfold verdictB
  split <;> simp_all

/-- C1: for every submission rendered successfully, variant A shows the
Eligible for Loan verdict exactly when the predicted label equals 1 and
High Credit Risk otherwise, while variant B shows Eligible for Loan
exactly when the predicted label equals 0 and High Credit Risk
otherwise: the two variants give the binary label opposite meanings. -/
theorem claim_verdict_label_encoding
    (pl : Pipeline) (m : ModelB) (pre : Preprocessor) (r : ApplicantRecord)
    (resA resB : RenderedResult)
    (hA : tryBodyA pl r = .ok resA) (hB : tryBodyB m pre r = .ok resB) :
    (resA.verdict = .eligible ↔ resA.prediction = 1) ∧
    (resA.verdict = .highRisk ↔ resA.prediction ≠ 1) ∧
    (resB.verdict = .eligible ↔ resB.prediction = 0) ∧
    (resB.verdict = .highRisk ↔ resB.prediction ≠ 0) := by
  obtain ⟨_, _, _, _, _, _, _, _, hv, _, _, _⟩ := tryBodyA_ok_inv pl r resA hA
  obtain ⟨_, _, _, _, _, _, _, _, _, _, hvB, _, _, _⟩ := tryBodyB_ok_inv m pre r resB hB
  rw [hv, hvB]
  exact ⟨verdictA_eligible_iff _, verdictA_highRisk_iff _,
    verdictB_eligible_iff _, verdictB_highRisk_iff _⟩

/-- Witness for C1 at the stub artifacts and the demo record. -/
theorem claim_verdict_label_encoding_witness :
    tryBodyA stubPipeline demoRecord = .ok demoResultA ∧
    tryBodyB stubModelB stubPre demoRecord = .ok demoResultB ∧
    ((demoResultA.verdict = .eligible ↔ demoResultA.prediction = 1) ∧
     (demoResultA.verdict = .highRisk ↔ demoResultA.prediction ≠ 1) ∧
     (demoResultB.verdict = .eligible ↔ demoResultB.prediction = 0) ∧
     (demoResultB.verdict = .highRisk ↔ demoResultB.prediction ≠ 0)) :=
  ⟨rfl, rfl, claim_verdict_label_encoding stubPipeline stubModelB stubPre
    demoRecord demoResultA demoResultB rfl rfl⟩

/-- C2: on every submission where inference succeeds, the confidence
score is the probability the vector assigns to the index of the
predicted label: index 1 when the label is 1, index 0 when it is 0, in
both variants. -/
theorem claim_confidence_is_predicted_index_mass :
    (∀ (pl : Pipeline) (r : ApplicantRecord) (res : RenderedResult)
        (probas : List (List ℚ)) (proba : List ℚ),
      tryBodyA pl r = .ok res →
      pl.predictProba (input_data r) = .ok probas →
      probas[0]? = some proba →
      (res.prediction = 1 → proba[1]? = some res.confidence) ∧
      (res.prediction = 0 → proba[0]? = some res.confidence)) ∧
    (∀ (m : ModelB) (pre : Preprocessor) (r : ApplicantRecord) (res : RenderedResult)
        (processed : ProcessedData) (probas : List (List ℚ)) (proba : List ℚ),
      tryBodyB m pre r = .ok res →
      pre.transform (input_dataB r) = .ok processed →
      m.predictProba processed = .ok probas →
      probas[0]? = some proba →
      (res.prediction = 1 → proba[1]? = some res.confidence) ∧
      (res.prediction = 0 → proba[0]? = some res.confidence)) := by
  constructor
  · intro pl r res probas proba hok hpp hp0
    obtain ⟨_, probas2, proba2, _, _, hpp2, hp02, hconf, _, _, _, _⟩ :=
      tryBodyA_ok_inv pl r res hok
    rw [hpp] at hpp2
    cases hpp2
    rw [hp0] at hp02
    cases hp02
    unfold confidence_score at hconf
    constructor
    · intro h1
      rw [if_pos h1] at hconf
      exact hconf
    · intro h0
      rw [if_neg (by rw [h0]; decide)] at hconf
      exact hconf
  · intro m pre r res processed probas proba hok htr hpp hp0
    obtain ⟨processed2, _, probas2, proba2, htr2, _, _, hpp2, hp02, hconf, _, _, _, _⟩ :=
      tryBodyB_ok_inv m pre r res hok
    rw [htr] at htr2
    cases htr2
    rw [hpp] at hpp2
    cases hpp2
    rw [hp0] at hp02
    cases hp02
    unfold confidence_scoreB at hconf
    constructor
    · intro h1
      rw [if_pos h1] at hconf
      exact hconf
    · intro h0
      rw [if_neg (by rw [h0]; decide)] at hconf
      exact hconf

/-- Witness for C2 at the stub artifacts and the demo record. -/
theorem claim_confidence_is_predicted_index_mass_witness :
    tryBodyA stubPipeline demoRecord = .ok demoResultA ∧
    stubPipeline.predictProba (input_data demoRecord) =
      .ok [[mkRat 2 10, mkRat 8 10]] ∧
    ([[mkRat 2 10, mkRat 8 10]] : List (List ℚ))[0]? = some [mkRat 2 10, mkRat 8 10] ∧
    ((demoResultA.prediction = 1 →
        ([mkRat 2 10, mkRat 8 10] : List ℚ)[1]? = some demoResultA.confidence) ∧
     (demoResultA.prediction = 0 →
        ([mkRat 2 10, mkRat 8 10] : List ℚ)[0]? = some demoResultA.confidence)) :=
  ⟨rfl, rfl, rfl,
    claim_confidence_is_predicted_index_mass.1 stubPipeline demoRecord demoResultA
      [[mkRat 2 10, mkRat 8 10]] [mkRat 2 10, mkRat 8 10] rfl rfl rfl⟩

/-- C3: the Feature Assembler of either variant turns a record within
the §3 ranges into a single-row table of exactly eight columns with the
expected names in order, each holding the submitted value unchanged. -/
theorem claim_feature_assembler_passthrough
    (r : ApplicantRecord) (_h : validRecord r) :
    ((input_data r).length = 8 ∧
     (input_data r).map Prod.fst =
       ["Age", "StatedMonthlyIncome", "LoanAmount", "EmploymentStatus",
        "CreditScore", "LoanTerm", "LoanPurpose", "Delinquencies"] ∧
     (input_data r).map Prod.snd =
       [[.intVal r.age], [.floatVal r.statedMonthlyIncome],
        [.floatVal r.loanAmount], [.strVal r.employmentStatus],
        [.intVal r.creditScore], [.intVal r.loanTerm],
        [.strVal r.loanPurpose], [.intVal r.delinquencies]]) ∧
    ((input_dataB r).length = 8 ∧
     (input_dataB r).map Prod.fst =
       ["Age", "StatedMonthlyIncome", "LoanAmount", "EmploymentStatus",
        "CreditScore", "LoanTerm", "LoanPurpose", "Delinquencies"] ∧
     (input_dataB r).map Prod.snd =
       [[.intVal r.age], [.floatVal r.statedMonthlyIncome],
        [.floatVal r.loanAmount], [.strVal r.employmentStatus],
        [.intVal r.creditScore], [.intVal r.loanTerm],
        [.strVal r.loanPurpose], [.intVal r.delinquencies]]) :=
  ⟨⟨rfl, rfl, rfl⟩, ⟨rfl, rfl, rfl⟩⟩

/-- Witness for C3 at the boundary record of §8: Age 18, CreditScore
300, Delinquencies 20, LoanAmount 50000. -/
theorem claim_feature_assembler_passthrough_witness :
    validRecord boundaryRecord ∧
    ((input_data boundaryRecord).length = 8 ∧
     (input_data boundaryRecord).map Prod.fst =
       ["Age", "StatedMonthlyIncome", "LoanAmount", "EmploymentStatus",
        "CreditScore", "LoanTerm", "LoanPurpose", "Delinquencies"] ∧
     (input_data boundaryRecord).map Prod.snd =
       [[.intVal boundaryRecord.age], [.floatVal boundaryRecord.statedMonthlyIncome],
        [.floatVal boundaryRecord.loanAmount], [.strVal boundaryRecord.employmentStatus],
        [.intVal boundaryRecord.creditScore], [.intVal boundaryRecord.loanTerm],
        [.strVal boundaryRecord.loanPurpose], [.intVal boundaryRecord.delinquencies]]) ∧
    ((input_dataB boundaryRecord).length = 8 ∧
     (input_dataB boundaryRecord).map Prod.fst =
       ["Age", "StatedMonthlyIncome", "LoanAmount", "EmploymentStatus",
        "CreditScore", "LoanTerm", "LoanPurpose", "Delinquencies"] ∧
     (input_dataB boundaryRecord).map Prod.snd =
       [[.intVal boundaryRecord.age], [.floatVal boundaryRecord.statedMonthlyIncome],
        [.floatVal boundaryRecord.loanAmount], [.strVal boundaryRecord.employmentStatus],
        [.intVal boundaryRecord.creditScore], [.intVal boundaryRecord.loanTerm],
        [.strVal boundaryRecord.loanPurpose], [.intVal boundaryRecord.delinquencies]]) :=
  ⟨by decide,
    (claim_feature_assembler_passthrough boundaryRecord (by decide)).1,
    (claim_feature_assembler_passthrough boundaryRecord (by decide)).2⟩

/-- C4: when an artifact file is missing or fails to deserialize the
loader reports a user-visible error and yields an absent value, and for
every later submission the prediction branch is never entered while the
form still renders, in both variants. -/
theorem claim_load_failure_disables_prediction
    (errA : LoadErr) (subsA : List (Bool × ApplicantRecord))
    (readModel : Except LoadErr ModelB) (readPre : Except LoadErr Preprocessor)
    (errB : LoadErr) (subsB : List (Bool × ApplicantRecord))
    (hB : readModel = .error errB ∨ readPre = .error errB) :
    ((load_model_pipeline (.error errA)).1 = none ∧
     (load_model_pipeline (.error errA)).2 ≠ [] ∧
     ∀ page ∈ (runSessionA (.error errA) subsA).2,
       page.formRendered = true ∧ page.predictionOutput = .noOutput) ∧
    ((load_model_and_preprocessor readModel readPre).1 = (none, none) ∧
     (load_model_and_preprocessor readModel readPre).2 ≠ [] ∧
     ∀ page ∈ (runSessionB readModel readPre subsB).2,
       page.formRendered = true ∧ page.predictionOutput = .noOutput) := by
  have hA : (load_model_pipeline (.error errA)).1 = none ∧
      (load_model_pipeline (.error errA)).2 ≠ [] := by
    cases errA <;> simp [load_model_pipeline]
  have hBload : (load_model_and_preprocessor readModel readPre).1 = (none, none) ∧
      (load_model_and_preprocessor readModel readPre).2 ≠ [] := by
    cases readModel with
    | error e => cases e <;> simp [load_model_and_preprocessor]
    | ok m =>
      rcases hB with h1 | h2
      · exact absurd h1 (by simp)
      · rw [h2]
        cases errB <;> simp [load_model_and_preprocessor]
  refine ⟨⟨hA.1, hA.2, ?_⟩, ⟨hBload.1, hBload.2, ?_⟩⟩
  · intro page hpage
    simp only [runSessionA, hA.1, List.mem_map] at hpage
    obtain ⟨s, _, hs⟩ := hpage
    rw [← hs, appStepA_noPipeline]
    exact ⟨rfl, rfl⟩
  · intro page hpage
    simp only [runSessionB, hBload.1, List.mem_map] at hpage
    obtain ⟨s, _, hs⟩ := hpage
    rw [← hs, appStepB_noArtifact]
    exact ⟨rfl, rfl⟩

/-- Witness for C4: a missing pipeline file in variant A and a missing
preprocessor file in variant B, with one submission each. -/
theorem claim_load_failure_disables_prediction_witness :
    ((.ok stubModelB : Except LoadErr ModelB) = .error .fileNotFound ∨
     (.error .fileNotFound : Except LoadErr Preprocessor) = .error .fileNotFound) ∧
    (((load_model_pipeline (.error .fileNotFound)).1 = none ∧
      (load_model_pipeline (.error .fileNotFound)).2 ≠ [] ∧
      ∀ page ∈ (runSessionA (.error .fileNotFound) [(true, demoRecord)]).2,
        page.formRendered = true ∧ page.predictionOutput = .noOutput) ∧
     ((load_model_and_preprocessor (.ok stubModelB) (.error .fileNotFound)).1 = (none, none) ∧
      (load_model_and_preprocessor (.ok stubModelB) (.error .fileNotFound)).2 ≠ [] ∧
      ∀ page ∈ (runSessionB (.ok stubModelB) (.error .fileNotFound) [(true, demoRecord)]).2,
        page.formRendered = true ∧ page.predictionOutput = .noOutput)) :=
  ⟨Or.inr rfl,
    claim_load_failure_disables_prediction .fileNotFound [(true, demoRecord)]
      (.ok stubModelB) (.error .fileNotFound) .fileNotFound [(true, demoRecord)]
      (Or.inr rfl)⟩

/-- C5: any exception raised inside the prediction block is caught and
shown as the Error during prediction message; on that path no verdict,
confidence or summary is rendered (the output is the error message, not
a rendered result), and the loaded artifacts serve subsequent
submissions unchanged. -/
theorem claim_inference_exception_boundary
    (pl : Pipeline) (r r2 : ApplicantRecord) (e : String)
    (hA : tryBodyA pl r = .error e)
    (m : ModelB) (pre : Preprocessor) (rB r2B : ApplicantRecord) (eB : String)
    (hBe : tryBodyB m pre rB = .error eB) :
    (appStepA (some pl) true r =
      ⟨true, .errorMsg ("Error during prediction: " ++ e)⟩ ∧
     ∀ readP, load_model_pipeline readP = (some pl, []) →
       (runSessionA readP [(true, r), (true, r2)]).2 =
         [⟨true, .errorMsg ("Error during prediction: " ++ e)⟩,
          appStepA (some pl) true r2]) ∧
    (appStepB (some m) (some pre) true rB =
      ⟨true, .errorMsg ("Error during prediction: " ++ eB)⟩ ∧
     ∀ readM readPre2,
       load_model_and_preprocessor readM readPre2 = ((some m, some pre), []) →
       (runSessionB readM readPre2 [(true, rB), (true, r2B)]).2 =
         [⟨true, .errorMsg ("Error during prediction: " ++ eB)⟩,
          appStepB (some m) (some pre) true r2B]) := by
  refine ⟨⟨?_, ?_⟩, ⟨?_, ?_⟩⟩
  · simp [appStepA, hA]
  · intro readP hload
    simp [runSessionA, hload, appStepA, hA]
  · simp [appStepB, hBe]
  · intro readM readPre2 hload
    simp [runSessionB, hload, appStepB, hBe]

/-- Witness for C5 at the always-raising stub artifacts. -/
theorem claim_inference_exception_boundary_witness :
    tryBodyA failingPipeline demoRecord = .error "boom" ∧
    tryBodyB failingModelB stubPre demoRecord = .error "boom" ∧
    ((appStepA (some failingPipeline) true demoRecord =
        ⟨true, .errorMsg ("Error during prediction: " ++ "boom")⟩ ∧
      ∀ readP, load_model_pipeline readP = (some failingPipeline, []) →
        (runSessionA readP [(true, demoRecord), (true, demoRecord)]).2 =
          [⟨true, .errorMsg ("Error during prediction: " ++ "boom")⟩,
           appStepA (some failingPipeline) true demoRecord]) ∧
     (appStepB (some failingModelB) (some stubPre) true demoRecord =
        ⟨true, .errorMsg ("Error during prediction: " ++ "boom")⟩ ∧
      ∀ readM readPre2,
        load_model_and_preprocessor readM readPre2 =
          ((some failingModelB, some stubPre), []) →
        (runSessionB readM readPre2 [(true, demoRecord), (true, demoRecord)]).2 =
          [⟨true, .errorMsg ("Error during prediction: " ++ "boom")⟩,
           appStepB (some failingModelB) (some stubPre) true demoRecord])) :=
  ⟨rfl, rfl,
    claim_inference_exception_boundary failingPipeline demoRecord demoRecord "boom"
      rfl failingModelB stubPre demoRecord demoRecord "boom" rfl⟩


/-- C6: the derived confidence score is within 0 and 1 whenever the
probability entries are, in both variants; and for a binary label, when
the probability assigned to the predicted label is the maximum of the
vector, the confidence score equals that maximum. -/
theorem claim_confidence_bounds_and_max
    (prediction : Int) (proba : List ℚ) (c : ℚ)
    (hrange : ∀ q ∈ proba, 0 ≤ q ∧ q ≤ 1)
    (hc : confidence_score prediction proba = some c) :
    (0 ≤ c ∧ c ≤ 1) ∧
    confidence_scoreB prediction proba = some c ∧
    ((prediction = 0 ∨ prediction = 1) →
      ∀ lp, proba[prediction.toNat]? = some lp →
        (∀ q ∈ proba, q ≤ lp) →
        c = lp ∧ proba.maximum = (c : WithBot ℚ)) := by
  have hmem : c ∈ proba := by
    unfold confidence_score at hc
    split at hc
    · exact List.getElem?_mem hc
    · exact List.getElem?_mem hc
  refine ⟨hrange c hmem, hc, ?_⟩
  rintro (rfl | rfl) lp hlp hmax
  · unfold confidence_score at hc
    rw [if_neg (by decide)] at hc
    rw [Int.toNat_zero, hc] at hlp
    injection hlp with hlp2
    subst hlp2
    exact ⟨rfl, List.maximum_eq_coe_iff.mpr ⟨hmem, hmax⟩⟩
  · unfold confidence_score at hc
    rw [if_pos rfl] at hc
    rw [Int.toNat_one, hc] at hlp
    injection hlp with hlp2
    subst hlp2
    exact ⟨rfl, List.maximum_eq_coe_iff.mpr ⟨hmem, hmax⟩⟩

/-- Witness for C6 at label 1 with the probability vector 0.2, 0.8. -/
theorem claim_confidence_bounds_and_max_witness :
    (∀ q ∈ ([mkRat 2 10, mkRat 8 10] : List ℚ), 0 ≤ q ∧ q ≤ 1) ∧
    confidence_score 1 [mkRat 2 10, mkRat 8 10] = some (mkRat 8 10) ∧
    ((0 ≤ mkRat 8 10 ∧ mkRat 8 10 ≤ 1) ∧
     confidence_scoreB 1 [mkRat 2 10, mkRat 8 10] = some (mkRat 8 10) ∧
     (((1 : Int) = 0 ∨ (1 : Int) = 1) →
       ∀ lp, ([mkRat 2 10, mkRat 8 10] : List ℚ)[(1 : Int).toNat]? = some lp →
         (∀ q ∈ ([mkRat 2 10, mkRat 8 10] : List ℚ), q ≤ lp) →
         mkRat 8 10 = lp ∧
           ([mkRat 2 10, mkRat 8 10] : List ℚ).maximum = (mkRat 8 10 : WithBot ℚ))) :=
  ⟨by decide, rfl,
    claim_confidence_bounds_and_max 1 [mkRat 2 10, mkRat 8 10] (mkRat 8 10)
      (by decide) rfl⟩

/-- C7: inference is a pure function of the once-loaded artifact and the
submitted record: within one session, two submissions with identical
input produce identical pages (same verdict, label, confidence and
summary), in both variants. -/
theorem claim_idempotent_submissions
    (readP : Except LoadErr Pipeline) (subs : List (Bool × ApplicantRecord))
    (i j : Nat) (hsub : subs[i]? = subs[j]?)
    (readM : Except LoadErr ModelB) (readPre : Except LoadErr Preprocessor)
    (subsB : List (Bool × ApplicantRecord)) (iB jB : Nat)
    (hsubB : subsB[iB]? = subsB[jB]?) :
    (runSessionA readP subs).2[i]? = (runSessionA readP subs).2[j]? ∧
    (runSessionB readM readPre subsB).2[iB]? = (runSessionB readM readPre subsB).2[jB]? := by
  constructor
  · simp only [runSessionA, List.getElem?_map, hsub]
  · simp only [runSessionB, List.getElem?_map, hsubB]

/-- Witness for C7: the demo record submitted twice in one session. -/
theorem claim_idempotent_submissions_witness :
    (([(true, demoRecord), (true, demoRecord)] :
        List (Bool × ApplicantRecord))[0]? =
      ([(true, demoRecord), (true, demoRecord)] :
        List (Bool × ApplicantRecord))[1]?) ∧
    ((runSessionA (.ok stubPipeline) [(true, demoRecord), (true, demoRecord)]).2[0]? =
      (runSessionA (.ok stubPipeline) [(true, demoRecord), (true, demoRecord)]).2[1]? ∧
     (runSessionB (.ok stubModelB) (.ok stubPre)
        [(true, demoRecord), (true, demoRecord)]).2[0]? =
      (runSessionB (.ok stubModelB) (.ok stubPre)
        [(true, demoRecord), (true, demoRecord)]).2[1]?) :=
  ⟨rfl,
    claim_idempotent_submissions (.ok stubPipeline)
      [(true, demoRecord), (true, demoRecord)] 0 1 rfl
      (.ok stubModelB) (.ok stubPre)
      [(true, demoRecord), (true, demoRecord)] 0 1 rfl⟩

/-- C8: in variant A the end-to-end scenario record fed to the stub
artifact returning label 1 with probabilities 0.2, 0.8 renders the
eligible verdict with the confidence formatted as 80.00 percent. -/
theorem claim_end_to_end_demo :
    appStepA (some stubPipeline) true demoRecord =
      ⟨true, .rendered demoResultA⟩ ∧
    demoResultA.prediction = 1 ∧
    demoResultA.verdict = .eligible ∧
    demoResultA.confidenceText = "80.00%" :=
  ⟨rfl, rfl, rfl, rfl⟩

/-- C9 counterexample: the summary table of the sources does not echo
all eight submitted values verbatim; for the demo record the income and
loan amount cells hold dollar-formatted strings, not the entered
numbers. -/
theorem claim_summary_verbatim_counterexample :
    summary_values demoRecord ≠ specVerbatimEcho demoRecord ∧
    (summary_values demoRecord)[1]? =
      some (.strVal "$5,000.00") ∧
    (specVerbatimEcho demoRecord)[1]? = some (.floatVal 5000) := by
  refine ⟨by decide, by decide, rfl⟩

/-- C9 amended: every successful submission renders the confidence
score as a percentage with two decimal places and a summary table that
echoes six of the eight fields verbatim while StatedMonthlyIncome and
LoanAmount appear as dollar-formatted strings of the entered amounts,
in both variants. -/
theorem claim_summary_rendering_amended
    (pl : Pipeline) (r : ApplicantRecord) (res : RenderedResult)
    (hA : tryBodyA pl r = .ok res)
    (m : ModelB) (pre : Preprocessor) (rB : ApplicantRecord) (resB : RenderedResult)
    (hB : tryBodyB m pre rB = .ok resB) :
    (res.confidenceText = formatPercent res.confidence ∧
     res.summaryParameters = summary_params ∧
     res.summaryValues =
       [.intVal r.age, .strVal (dollarFormat r.statedMonthlyIncome),
        .strVal (dollarFormat r.loanAmount), .strVal r.employmentStatus,
        .intVal r.creditScore, .intVal r.loanTerm, .strVal r.loanPurpose,
        .intVal r.delinquencies]) ∧
    (resB.confidenceText = formatPercent resB.confidence ∧
     resB.summaryParameters = summary_params ∧
     resB.summaryValues =
       [.intVal rB.age, .strVal (dollarFormat rB.statedMonthlyIncome),
        .strVal (dollarFormat rB.loanAmount), .strVal rB.employmentStatus,
        .intVal rB.creditScore, .intVal rB.loanTerm, .strVal rB.loanPurpose,
        .intVal rB.delinquencies]) := by
  obtain ⟨_, _, _, _, _, _, _, _, _, htext, hpar, hval⟩ :=
    tryBodyA_ok_inv pl r res hA
  obtain ⟨_, _, _, _, _, _, _, _, _, _, _, htextB, hparB, hvalB⟩ :=
    tryBodyB_ok_inv m pre rB resB hB
  exact ⟨⟨htext, hpar, hval⟩, ⟨htextB, hparB, hvalB⟩⟩

/-- Witness for C9 amended at the stub artifacts and the demo record. -/
theorem claim_summary_rendering_amended_witness :
    tryBodyA stubPipeline demoRecord = .ok demoResultA ∧
    tryBodyB stubModelB stubPre demoRecord = .ok demoResultB ∧
    ((demoResultA.confidenceText = formatPercent demoResultA.confidence ∧
      demoResultA.summaryParameters = summary_params ∧
      demoResultA.summaryValues =
        [.intVal demoRecord.age,
         .strVal (dollarFormat demoRecord.statedMonthlyIncome),
         .strVal (dollarFormat demoRecord.loanAmount),
         .strVal demoRecord.employmentStatus,
         .intVal demoRecord.creditScore, .intVal demoRecord.loanTerm,
         .strVal demoRecord.loanPurpose, .intVal demoRecord.delinquencies]) ∧
     (demoResultB.confidenceText = formatPercent demoResultB.confidence ∧
      demoResultB.summaryParameters = summary_params ∧
      demoResultB.summaryValues =
        [.intVal demoRecord.age,
         .strVal (dollarFormat demoRecord.statedMonthlyIncome),
         .strVal (dollarFormat demoRecord.loanAmount),
         .strVal demoRecord.employmentStatus,
         .intVal demoRecord.creditScore, .intVal demoRecord.loanTerm,
         .strVal demoRecord.loanPurpose, .intVal demoRecord.delinquencies])) :=
  ⟨rfl, rfl,
    claim_summary_rendering_amended stubPipeline demoRecord demoResultA rfl
      stubModelB stubPre demoRecord demoResultB rfl⟩

/-- C10: in both variants, whenever the predicted label differs from 1,
including labels outside zero and one, the confidence score is read
from index 0 of the probability vector, hence for such labels it is the
probability of class 0, not of the predicted label. -/
theorem claim_label_not_one_uses_index_zero
    (prediction : Int) (proba : List ℚ) (h : prediction ≠ 1) :
    confidence_score prediction proba = proba[0]? ∧
    confidence_scoreB prediction proba = proba[0]? := by
  unfold confidence_score confidence_scoreB
  rw [if_neg h]
  exact ⟨rfl, rfl⟩

/-- Witness for C10 at label 2 with a three-class probability vector:
the reported confidence is the class 0 mass 0.1, not the predicted
class mass 0.7. -/
theorem claim_label_not_one_uses_index_zero_witness :
    (2 : Int) ≠ 1 ∧
    (confidence_score 2 [mkRat 1 10, mkRat 2 10, mkRat 7 10] =
       ([mkRat 1 10, mkRat 2 10, mkRat 7 10] : List ℚ)[0]? ∧
     confidence_scoreB 2 [mkRat 1 10, mkRat 2 10, mkRat 7 10] =
       ([mkRat 1 10, mkRat 2 10, mkRat 7 10] : List ℚ)[0]?) ∧
    confidence_score 2 [mkRat 1 10, mkRat 2 10, mkRat 7 10] = some (mkRat 1 10) ∧
    ([mkRat 1 10, mkRat 2 10, mkRat 7 10] : List ℚ)[(2 : Int).toNat]? =
      some (mkRat 7 10) ∧
    mkRat 1 10 ≠ mkRat 7 10 :=
  ⟨by decide,
    claim_label_not_one_uses_index_zero 2 [mkRat 1 10, mkRat 2 10, mkRat 7 10]
      (by decide),
    rfl, rfl, by decide⟩
